import Mathlib

/-!
Shallow embedding of the `optionally_const` crate and its derive macro
`optionally_const_macros`, together with proofs about the embedded code.

Rust `Result<Self, T>` is embedded as `Except T Self` (`Ok` ↦ `Except.ok`,
`Err` ↦ `Except.error`).  Zero-size marker types are embedded as fieldless
structures; a trait implementation is embedded as a group of plain
functions, one per associated item, kept under a namespace named after the
implementing type.
-/

namespace OptConst

/-- Embedding of `Result::ok` (`Result<T, E> -> Option<T>`), used by the
default body of `try_from_another`. -/
def resultOk {ε α : Type} : Except ε α → Option α
  | .ok a => some a
  | .error _ => none

/-- Embedding of `Option::ok_or` (`Option<T> -> Result<T, E>`), used by the
default body of `try_from_another`. -/
def optionOkOr {ε α : Type} (o : Option α) (e : ε) : Except ε α :=
  match o with
  | some a => .ok a
  | none => .error e

/-!
## The blanket dynamic implementation

`impl<T> OptionallyConst<T> for T where T: Clone + Copy + PartialEq`
(`optionally_const/src/lib.rs`, lines 92–105).  The `PartialEq` bound is
embedded as a `DecidableEq` instance argument; `Clone`/`Copy` are implicit
in Lean's value semantics.
-/

namespace DynImpl

/-- `const MAYBE_CONST: Option<T> = None;` of the blanket implementation. -/
def MAYBE_CONST (T : Type) [DecidableEq T] : Option T := none

/-- `fn into_value(self) -> T { self }` of the blanket implementation. -/
def into_value {T : Type} [DecidableEq T] (self : T) : T := self

/-- `fn try_from_value(value: T) -> Result<Self, T> { Ok(value) }` of the
blanket implementation. -/
def try_from_value {T : Type} [DecidableEq T] (value : T) : Except T T :=
  .ok value

end DynImpl

/-!
## The default method `try_from_another`

`OptionallyConst::try_from_another` (`optionally_const/src/lib.rs`,
lines 69–77):

    Self::try_from_value(another.into_value())
        .ok()
        .ok_or(another)

The method is generic over the implementor `Self` and the source type `U`;
here `Self` and `U` are represented by the pair of functions the default
body actually calls: `U`'s `into_value` and `Self`'s `try_from_value`.
-/

/-- The default body of `OptionallyConst::try_from_another`, parametrized
by the `into_value` of the source implementor `U` and the `try_from_value`
of the target implementor `Self`. -/
def try_from_another {T SelfTy U : Type}
    (into_value : U → T) (try_from_value : T → Except T SelfTy)
    (another : U) : Except U SelfTy :=
  optionOkOr (resultOk (try_from_value (into_value another))) another

/-!
## The boolean marker types

`pub struct ConstTypeBool<const VAL: bool>;` with
`impl<const VAL: bool> Const<bool> for ConstTypeBool<VAL>` and
`impl<const VAL: bool> OptionallyConst<bool> for ConstTypeBool<VAL>`
(`optionally_const/src/lib.rs`, lines 13–17, 86–88 and 119–133).
-/

/-- `hidden::ConstTypeBool<VAL>`: a zero-size marker type parametrized by
a boolean constant.  It derives `Clone`, `Copy`, `PartialEq`. -/
structure ConstTypeBool (VAL : Bool) where
  mk ::
deriving DecidableEq

namespace ConstTypeBoolImpl

/-- `const VALUE: bool = VAL;` from `impl Const<bool> for ConstTypeBool<VAL>`. -/
def VALUE (VAL : Bool) : Bool := VAL

/-- `const MAYBE_CONST: Option<bool> = Some(VAL);` from
`impl OptionallyConst<bool> for ConstTypeBool<VAL>`. -/
def MAYBE_CONST (VAL : Bool) : Option Bool := some VAL

/-- `fn into_value(self) -> bool { VAL }`. -/
def into_value {VAL : Bool} (_self : ConstTypeBool VAL) : Bool := VAL

/-- `fn try_from_value(value: bool) -> Result<Self, bool>`:
`if value == VAL { Ok(ConstTypeBool::<VAL>) } else { Err(value) }`. -/
def try_from_value (VAL : Bool) (value : Bool) :
    Except Bool (ConstTypeBool VAL) :=
  if value == VAL then .ok ConstTypeBool.mk else .error value

end ConstTypeBoolImpl

/-!
## The derive macro `FieldlessEnumConstType`

Embedding of `optionally_const_macros/src/lib.rs`.  The `syn` input is
embedded structurally: an attribute keeps its path identifier and its
`Meta` shape; the token stream inside `#[const_type(...)]` is kept as a
list of coarse tokens, matching what `derive_syn_parse` consumes for
`ConstTypeSyntax` (outer attributes followed by a single identifier, with
no trailing tokens).  A `panic!`/failed `assert!` inside a procedural
macro aborts the expansion with no emitted tokens; it is embedded as
`Except.error` carrying the panic message.
-/

/-- A coarse token inside the `#[const_type(...)]` attribute: an outer
attribute (`#[...]`), an identifier, or anything else. -/
inductive ConstTypeTok
  | attrTok
  | identTok (s : String)
  | otherTok
deriving DecidableEq

/-- The shape of a `syn::Meta` (`Path`, `List(tokens)` or `NameValue`). -/
inductive MetaKind
  | path
  | list (tokens : List ConstTypeTok)
  | nameValue
deriving DecidableEq

/-- A `syn::Attribute`: `pathIdent` is `attr.path().get_ident()` (none when
the path is not a single identifier), `attrMeta` is `attr.meta`. -/
structure Attr where
  pathIdent : Option String
  attrMeta : MetaKind
deriving DecidableEq

/-- The shape of a variant's fields (`syn::Fields`). -/
inductive Fields
  | unit
  | named
  | unnamed
deriving DecidableEq

/-- `matches!(fields, syn::Fields::Unit)`. -/
def Fields.isUnit : Fields → Bool
  | .unit => true
  | _ => false

/-- A `syn::Variant` of the input enum: its identifier, the shape of its
fields, and its optional explicit discriminant (restricted to non-negative
integer literals, the well-formed case for a fieldless enum cast to
`usize`). -/
structure Variant where
  ident : String
  fields : Fields
  discriminant : Option Nat
deriving DecidableEq

/-- A `syn::Data`: the input item is an enum, a struct or a union. -/
inductive Data
  | enumData (variants : List Variant)
  | structData
  | unionData
deriving DecidableEq

/-- A `syn::DeriveInput` (the fields the macro uses). -/
structure DeriveInput where
  attrs : List Attr
  ident : String
  data : Data
deriving DecidableEq

/-- `fn find_const_type_attr`: the first attribute whose path is the single
identifier `const_type` (`Iterator::find`); the `panic!` on a missing
attribute is raised by the caller in this embedding. -/
def find_const_type_attr (attrs : List Attr) : Option Attr :=
  attrs.find? fun a => a.pathIdent == some "const_type"

/-- The parsed `struct ConstTypeSyntax`: outer attributes (kept abstract)
followed by a single identifier. -/
structure ConstTypeSyn where
  attrsCount : Nat
  name : String
deriving DecidableEq

/-- `syn::parse2::<ConstTypeSyntax>(tokens)`: `derive_syn_parse` first
consumes every leading outer attribute (`syn::Attribute::parse_outer`),
then a single identifier, and `parse2` fails unless the stream is then
exhausted. -/
def parseConstTypeSyn : List ConstTypeTok → Option ConstTypeSyn
  | .attrTok :: rest =>
    (parseConstTypeSyn rest).map fun c =>
      { attrsCount := c.attrsCount + 1, name := c.name }
  | [.identTok s] => some { attrsCount := 0, name := s }
  | _ => none

/-- `fn const_type_syntax` together with the `panic!` inside
`find_const_type_attr`: locate the `const_type` attribute, require its meta
to be a list, and parse the list's tokens as `ConstTypeSyntax`.  Each
`panic!` becomes an `Except.error` with the panic message. -/
def const_type_syn (attrs : List Attr) : Except String ConstTypeSyn :=
  match find_const_type_attr attrs with
  | none => .error "Expected #[const_type(ConstTypeName)] attribute"
  | some attr =>
    match attr.attrMeta with
    | .list tokens =>
      match parseConstTypeSyn tokens with
      | some cts => .ok cts
      | none =>
        .error "Expected #[const_type(ConstTypeName)] attribute to contain a single identifier"
    | _ => .error "Expected #[const_type(ConstTypeName)] attribute to be a list"

/-- `fn assert_fieldless_enum`: assert that every variant has
`syn::Fields::Unit`; the first offending variant triggers the failed
`assert!`, whose message names that variant. -/
def assert_fieldless_enum (variants : List Variant) : Except String Unit :=
  match variants.find? (fun v => ! v.fields.isUnit) with
  | some v =>
    .error ("Expected fieldless enum variant, found non-fieldless variant " ++ v.ident)
  | none => .ok ()

/-!
## Discriminants

The generated code indexes the marker family with `{E::V as usize}` and
compares `self as usize == DISCRIMINANT`; both casts evaluate to the
variant's native discriminant.  Per the Rust reference, the discriminant
of the first variant defaults to `0`, the discriminant of each later
variant defaults to the previous discriminant plus one, and an explicit
`= n` overrides the default.
-/

/-- Rust's discriminant assignment for a fieldless enum: `next` is the
default discriminant for the head variant. -/
def assignDiscriminants (next : Nat) : List Variant → List Nat
  | [] => []
  | v :: rest =>
    let d := v.discriminant.getD next
    d :: assignDiscriminants (d + 1) rest

/-- The native discriminant of the variant at 0-based ordinal `i`
(the value of `E::V as usize` / `self as usize`). -/
def variantDiscriminant (vs : List Variant) (i : Nat) : Nat :=
  (assignDiscriminants 0 vs).getD i 0

theorem assignDiscriminants_length (next : Nat) (vs : List Variant) :
    (assignDiscriminants next vs).length = vs.length := by
  induction vs generalizing next with
  | nil => rfl
  | cons v rest ih => simp [assignDiscriminants, ih]

theorem assignDiscriminants_getD_implicit :
    ∀ (vs : List Variant), (∀ v ∈ vs, v.discriminant = none) →
    ∀ (n i : Nat), i < vs.length →
    (assignDiscriminants n vs).getD i 0 = n + i := by
  intro vs
  induction vs with
  | nil =>
    intro _ n i hi
    simp at hi
  | cons v rest ih =>
    intro h n i hi
    have hv : v.discriminant = none := h v (List.mem_cons_self _ _)
    have hrest : ∀ w ∈ rest, w.discriminant = none :=
      fun w hw => h w (List.mem_cons_of_mem _ hw)
    cases i with
    | zero => simp [assignDiscriminants, hv]
    | succ j =>
      have hj : j < rest.length := by simpa using hi
      have := ih hrest (n + 1) j hj
      simp only [assignDiscriminants, hv, Option.getD_none, List.getD_cons_succ]
      omega

/-- With no explicit discriminants, the native discriminant of a variant is
its 0-based ordinal. -/
theorem variantDiscriminant_implicit (vs : List Variant)
    (h : ∀ v ∈ vs, v.discriminant = none) (i : Nat) (hi : i < vs.length) :
    variantDiscriminant vs i = i := by
  simpa [variantDiscriminant] using assignDiscriminants_getD_implicit vs h 0 i hi

/-!
## The generated items

For an input enum `E` with variant list `vs`, an instance of `E` is
embedded as the 0-based ordinal of its variant (derived `PartialEq` on a
fieldless enum compares variants, so ordinal equality is value equality).
The generated marker family `struct ConstTypeName<const DISCRIMINANT: usize>;`
is embedded as the fieldless structure `GenConstType D`.
-/

/-- The generated marker family, indexed by the `usize` discriminant tag. -/
structure GenConstType (D : Nat) where
  mk ::
deriving DecidableEq

/-- `const VALUE: E = E::V;` of the generated
`impl Const<E> for ConstTypeName<{E::V as usize}>`, for the variant at
ordinal `i`: the value is that variant itself. -/
def gen_VALUE (_vs : List Variant) (i : Nat) : Nat := i

/-- `const MAYBE_CONST: Option<E> = Some(E::V);` of the generated
`impl OptionallyConst<E> for ConstTypeName<{E::V as usize}>`. -/
def gen_MAYBE_CONST (_vs : List Variant) (i : Nat) : Option Nat := some i

/-- `fn into_value(self) -> E { E::V }` of the generated
`OptionallyConst` impl for the variant at ordinal `i`. -/
def gen_into_value (vs : List Variant) (i : Nat)
    (_self : GenConstType (variantDiscriminant vs i)) : Nat := i

/-- The semantics of `matches!(scrutinee, value)` where `value` is a bare
lowercase identifier: the macro expands to a match whose first arm is the
identifier pattern `value`, which is irrefutable (it binds the scrutinee
instead of comparing against the local variable of the same name), so the
expression is `true` for every scrutinee. -/
def matchesBindingIdent {α : Type} (_scrutinee : α) : Bool := true

/-- `fn try_from_value(value: E) -> Result<Self, E>` of the generated
`OptionallyConst` impl for the variant at ordinal `i`:

    if matches!(<Self as Const<E>>::VALUE, value) {
        Ok(ConstTypeName)
    } else {
        Err(value)
    }
-/
def gen_try_from_value (vs : List Variant) (i : Nat) (value : Nat) :
    Except Nat (GenConstType (variantDiscriminant vs i)) :=
  if matchesBindingIdent (gen_VALUE vs i) then .ok GenConstType.mk
  else .error value

/-- The generated `const fn try_into_const_type_instance<const DISCRIMINANT: usize>`
on the enum `E` itself, for the instance at ordinal `e`:

    if self as usize == DISCRIMINANT {
        Ok(ConstTypeName::<DISCRIMINANT>)
    } else {
        Err(self)
    }

The `where ConstTypeName<DISCRIMINANT>: Const<E>` clause, which restricts
`DISCRIMINANT` to tags with a generated `Const` impl, appears as a
hypothesis on the theorems about this function. -/
def try_into_const_type_instance (vs : List Variant) (D : Nat) (e : Nat) :
    Except Nat (GenConstType D) :=
  if variantDiscriminant vs e == D then .ok GenConstType.mk else .error e

/-!
## The whole derive macro

`derive_fieldless_enum_const_type` validates its input and then emits the
marker family plus one `Const` impl and one `OptionallyConst` impl per
variant.  The emitted impls are summarized by the list of
(variant identifier, discriminant tag) pairs, in declaration order; the
tag is the value rustc gives the emitted const-generic argument
`{E::V as usize}`. -/
structure GeneratedOutput where
  enumIdent : String
  constTypeName : String
  constImpls : List (String × Nat)
deriving DecidableEq

/-- `pub fn derive_fieldless_enum_const_type(input) -> TokenStream`:
parse the `#[const_type(...)]` attribute, require the input to be an enum,
require every variant to be fieldless, then emit the generated items
(summarized as a `GeneratedOutput`).  Every `panic!` path is an
`Except.error` and emits nothing. -/
def derive_fieldless_enum_const_type (input : DeriveInput) :
    Except String GeneratedOutput :=
  match const_type_syn input.attrs with
  | .error e => .error e
  | .ok cts =>
    match input.data with
    | .structData => .error "#[derive(FieldlessEnumConstType)] can only be used on enums."
    | .unionData => .error "#[derive(FieldlessEnumConstType)] can only be used on enums."
    | .enumData variants =>
      match assert_fieldless_enum variants with
      | .error e => .error e
      | .ok _ =>
        .ok { enumIdent := input.ident
              constTypeName := cts.name
              constImpls :=
                List.zip (variants.map Variant.ident)
                  (assignDiscriminants 0 variants) }

/-!
## Concrete inputs used by witnesses and counterexamples
-/

/-- The three-variant fieldless enum of the repository's own tests:
`enum FieldlessEnum { A, B, C }`. -/
def demoEnum : List Variant :=
  [⟨"A", .unit, none⟩, ⟨"B", .unit, none⟩, ⟨"C", .unit, none⟩]

/-- A well-formed `#[const_type(ConstTypeName)]` attribute. -/
def goodAttr : Attr :=
  { pathIdent := some "const_type"
    attrMeta := .list [.identTok "ConstTypeName"] }

/-- The derive input of the repository's own tests. -/
def demoInput : DeriveInput :=
  { attrs := [goodAttr], ident := "FieldlessEnum", data := .enumData demoEnum }

/-- A fieldless enum with an explicit discriminant: `enum E { A = 7 }`. -/
def explicitSeven : List Variant := [⟨"A", .unit, some 7⟩]

/-- The derive input for `enum E { A = 7 }`. -/
def explicitSevenInput : DeriveInput :=
  { attrs := [goodAttr], ident := "E", data := .enumData explicitSeven }

/-- A fieldless enum with reordering explicit discriminants:
`enum E2 { A = 1, B = 0 }` (ordinal of `A` is 0 but `A as usize` is 1). -/
def exoticEnum : List Variant :=
  [⟨"A", .unit, some 1⟩, ⟨"B", .unit, some 0⟩]

/-!
## Claims about the core library
-/

/-- C3: for every value domain type `T` (equality-comparable, with Lean's
value semantics standing in for `Clone`/`Copy`) and every `v : T`, the
blanket implementation `impl<T> OptionallyConst<T> for T` has
`MAYBE_CONST = None`, `into_value(v) = v`, and `try_from_value(v) = Ok(v)`. -/
theorem c3_blanket_dynamic_impl (T : Type) [DecidableEq T] (v : T) :
    DynImpl.MAYBE_CONST T = none ∧ DynImpl.into_value v = v ∧
    DynImpl.try_from_value v = .ok v :=
  ⟨rfl, rfl, rfl⟩

theorem c3_blanket_dynamic_impl_witness :
    DynImpl.MAYBE_CONST Nat = none ∧ DynImpl.into_value 5 = 5 ∧
    DynImpl.try_from_value 5 = .ok 5 :=
  c3_blanket_dynamic_impl Nat 5

/-- C4: for each boolean `VAL`, the marker `ConstTypeBool<VAL>` has
`VALUE = VAL`, `MAYBE_CONST = Some(VAL)`, `into_value` returning `VAL`,
and `try_from_value(x)` succeeding exactly when `x = VAL` and otherwise
returning `Err(x)` with `x` unchanged. -/
theorem c4_const_type_bool (VAL : Bool) :
    ConstTypeBoolImpl.VALUE VAL = VAL ∧
    ConstTypeBoolImpl.MAYBE_CONST VAL = some VAL ∧
    (∀ x : ConstTypeBool VAL, ConstTypeBoolImpl.into_value x = VAL) ∧
    (∀ x : Bool, x = VAL →
      ConstTypeBoolImpl.try_from_value VAL x = .ok ConstTypeBool.mk) ∧
    (∀ x : Bool, x ≠ VAL →
      ConstTypeBoolImpl.try_from_value VAL x = .error x) := by
  refine ⟨rfl, rfl, fun x => rfl, ?_, ?_⟩
  · intro x hx
    subst hx
    simp [ConstTypeBoolImpl.try_from_value]
  · intro x hx
    simp [ConstTypeBoolImpl.try_from_value, hx]

theorem c4_const_type_bool_witness :
    ConstTypeBoolImpl.try_from_value true true = .ok ConstTypeBool.mk ∧
    ConstTypeBoolImpl.try_from_value true false = .error false :=
  ⟨(c4_const_type_bool true).2.2.2.1 true rfl,
   (c4_const_type_bool true).2.2.2.2 false (by decide)⟩

/-- C5: for every instance `x` of each embedded implementor of
`OptionallyConst` (the blanket dynamic implementation, the boolean
markers, and the markers generated for a fieldless enum),
`try_from_value(into_value(x))` succeeds and the resulting instance
equals `x`; for dynamic instances the carried value is preserved exactly. -/
theorem c5_round_trip :
    (∀ (T : Type) [DecidableEq T] (v : T),
      DynImpl.try_from_value (DynImpl.into_value v) = .ok v) ∧
    (∀ (VAL : Bool) (x : ConstTypeBool VAL),
      ConstTypeBoolImpl.try_from_value VAL (ConstTypeBoolImpl.into_value x) = .ok x) ∧
    (∀ (vs : List Variant) (i : Nat) (m : GenConstType (variantDiscriminant vs i)),
      gen_try_from_value vs i (gen_into_value vs i m) = .ok m) := by
  refine ⟨fun T _ v => rfl, ?_, ?_⟩
  · intro VAL x
    cases x
    simp [ConstTypeBoolImpl.try_from_value, ConstTypeBoolImpl.into_value]
  · intro vs i m
    cases m
    rfl

theorem c5_round_trip_witness :
    DynImpl.try_from_value (DynImpl.into_value (5 : Nat)) = .ok 5 ∧
    ConstTypeBoolImpl.try_from_value true
      (ConstTypeBoolImpl.into_value (ConstTypeBool.mk : ConstTypeBool true)) =
      .ok ConstTypeBool.mk :=
  ⟨c5_round_trip.1 Nat 5, c5_round_trip.2.1 true ConstTypeBool.mk⟩

/-- C6: the default method `try_from_another(other)` bridges two
implementors through the shared value domain: whenever
`Self::try_from_value` succeeds on `other`'s extracted value,
`try_from_another` returns the same success, and whenever it fails,
`try_from_another` returns `Err(other)` with the original typed instance
`other` unchanged — never the raw domain value. -/
theorem c6_try_from_another (T SelfTy U : Type)
    (into_value : U → T) (try_from_value : T → Except T SelfTy)
    (another : U) :
    (∀ s, try_from_value (into_value another) = .ok s →
      try_from_another into_value try_from_value another = .ok s) ∧
    (∀ t, try_from_value (into_value another) = .error t →
      try_from_another into_value try_from_value another = .error another) := by
  constructor
  · intro s hs
    simp [OptConst.try_from_another, hs, resultOk, optionOkOr]
  · intro t ht
    simp [OptConst.try_from_another, ht, resultOk, optionOkOr]

theorem c6_try_from_another_witness :
    try_from_another (fun b : Bool => b) (ConstTypeBoolImpl.try_from_value true)
      true = .ok ConstTypeBool.mk ∧
    try_from_another (fun b : Bool => b) (ConstTypeBoolImpl.try_from_value true)
      false = .error false :=
  ⟨(c6_try_from_another Bool (ConstTypeBool true) Bool (fun b => b)
      (ConstTypeBoolImpl.try_from_value true) true).1 ConstTypeBool.mk rfl,
   (c6_try_from_another Bool (ConstTypeBool true) Bool (fun b => b)
      (ConstTypeBoolImpl.try_from_value true) false).2 false rfl⟩

/-- C10: each boolean marker type is itself `Clone + Copy + PartialEq`, so
the blanket rule also gives it a dynamic implementation over the domain
`ConstTypeBool VAL` (with `MAYBE_CONST = None`), while its static
implementation over `bool` has `MAYBE_CONST = Some(VAL)`: the
dynamic-versus-static exclusivity holds only per (type, value-domain)
pair, not per concrete type. -/
theorem c10_marker_also_dynamic (VAL : Bool) :
    DynImpl.MAYBE_CONST (ConstTypeBool VAL) = none ∧
    ConstTypeBoolImpl.MAYBE_CONST VAL = some VAL ∧
    (∀ x : ConstTypeBool VAL,
      DynImpl.into_value x = x ∧ DynImpl.try_from_value x = .ok x) :=
  ⟨rfl, rfl, fun _x => ⟨rfl, rfl⟩⟩

theorem c10_marker_also_dynamic_witness :
    DynImpl.MAYBE_CONST (ConstTypeBool true) = none ∧
    ConstTypeBoolImpl.MAYBE_CONST true = some true ∧
    (∀ x : ConstTypeBool true,
      DynImpl.into_value x = x ∧ DynImpl.try_from_value x = .ok x) :=
  c10_marker_also_dynamic true

/-!
## Claims about the generated code
-/

/-- C1: the generated `try_from_value` does NOT return `Err(x)` on a
mismatching variant.  Its condition `matches!(<Self as Const<E>>::VALUE, value)`
uses the bare identifier `value` as the match pattern, which is an
irrefutable binding pattern, so the condition holds for every input and
the function returns `Ok(marker)` unconditionally — in particular at the
repository's own test input, marker `ConstTypeName<{FieldlessEnum::A as usize}>`
applied to `FieldlessEnum::B` (ordinal 1 ≠ 0). -/
theorem c1_generated_try_from_value_always_ok :
    (∀ (vs : List Variant) (i value : Nat),
      gen_try_from_value vs i value = .ok GenConstType.mk) ∧
    gen_try_from_value demoEnum 0 1 = .ok GenConstType.mk ∧ (1 : Nat) ≠ 0 :=
  ⟨fun _ _ _ => rfl, rfl, by decide⟩

/-- C2 (amended): for a generated enum, `try_into_const_type_instance::<D>(e)`
returns `Ok(marker-at-D)` exactly when `e`'s NATIVE DISCRIMINANT
(`e as usize`) equals `D`, and otherwise `Err(e)` with `e` unchanged;
when the enum declares no explicit discriminants the native discriminant
is the 0-based ordinal, which recovers the claim as stated. -/
theorem c2_tagged_conversion (vs : List Variant) (D e : Nat)
    (_hD : D ∈ assignDiscriminants 0 vs) (he : e < vs.length) :
    (variantDiscriminant vs e = D →
      try_into_const_type_instance vs D e = .ok GenConstType.mk) ∧
    (variantDiscriminant vs e ≠ D →
      try_into_const_type_instance vs D e = .error e) ∧
    ((∀ v ∈ vs, v.discriminant = none) →
      (try_into_const_type_instance vs D e = .ok GenConstType.mk ↔ e = D)) := by
  refine ⟨?_, ?_, ?_⟩
  · intro h
    simp [try_into_const_type_instance, h]
  · intro h
    simp [try_into_const_type_instance, h]
  · intro himp
    have hvd := variantDiscriminant_implicit vs himp e he
    by_cases hde : e = D
    · subst hde
      simp [try_into_const_type_instance, hvd]
    · simp [try_into_const_type_instance, hvd, hde]

theorem c2_tagged_conversion_witness :
    try_into_const_type_instance demoEnum 0 0 = .ok GenConstType.mk ∧
    try_into_const_type_instance demoEnum 0 1 = .error 1 :=
  ⟨(c2_tagged_conversion demoEnum 0 0 (by decide) (by decide)).1 (by decide),
   (c2_tagged_conversion demoEnum 0 1 (by decide) (by decide)).2.1 (by decide)⟩

/-- C2 counterexample: for `enum E2 { A = 1, B = 0 }` the marker family is
specialized at tag 1 (for `A`), and
`E2::A.try_into_const_type_instance::<1>()` returns `Ok` although `A`'s
0-based ordinal is 0 ≠ 1 — the conversion keys on the native discriminant,
not on the declaration-order ordinal as the claim states. -/
theorem c2_counterexample :
    1 ∈ assignDiscriminants 0 exoticEnum ∧
    try_into_const_type_instance exoticEnum 1 0 = .ok GenConstType.mk ∧
    (0 : Nat) ≠ 1 :=
  ⟨by decide, rfl, by decide⟩

/-- C7: cross-bridging behaviour of the code for the generated enum
`FieldlessEnum { A, B, C }`.  Converting marker(A) into marker(A), marker(A)
into `E`, and `E::A` into marker(A) succeed as the claim states; but
because the generated `try_from_value` succeeds unconditionally, converting
marker(B) into marker(A) and converting `E::B` into marker(A) ALSO succeed
(conjuncts 2 and 5), where the claim — and the repository's own test
`test_try_from_another` — require `Err` with the source unchanged. -/
theorem c7_cross_bridging_behavior :
    try_from_another (gen_into_value demoEnum 0) (gen_try_from_value demoEnum 0)
      (GenConstType.mk : GenConstType (variantDiscriminant demoEnum 0)) =
        .ok GenConstType.mk ∧
    try_from_another (gen_into_value demoEnum 1) (gen_try_from_value demoEnum 0)
      (GenConstType.mk : GenConstType (variantDiscriminant demoEnum 1)) =
        .ok GenConstType.mk ∧
    try_from_another (gen_into_value demoEnum 0) (@DynImpl.try_from_value Nat _)
      (GenConstType.mk : GenConstType (variantDiscriminant demoEnum 0)) =
        .ok 0 ∧
    try_from_another (@DynImpl.into_value Nat _) (gen_try_from_value demoEnum 0)
      0 = .ok GenConstType.mk ∧
    try_from_another (@DynImpl.into_value Nat _) (gen_try_from_value demoEnum 0)
      1 = .ok GenConstType.mk :=
  ⟨rfl, rfl, rfl, rfl, rfl⟩

/-- C9 (amended): the generator emits, for the variant at ordinal `i`, a
marker-family specialization whose tag is the value of `E::V as usize` —
the variant's NATIVE DISCRIMINANT; it never reassigns or renumbers, and
when the enum declares no explicit discriminants the tag equals the
0-based declaration-order ordinal, recovering the claim as stated. -/
theorem c9_tags_are_native_discriminants (input : DeriveInput)
    (vs : List Variant) (out : GeneratedOutput)
    (hdata : input.data = .enumData vs)
    (hok : derive_fieldless_enum_const_type input = .ok out) :
    out.constImpls = List.zip (vs.map Variant.ident) (assignDiscriminants 0 vs) ∧
    ((∀ v ∈ vs, v.discriminant = none) →
      ∀ i, i < vs.length → variantDiscriminant vs i = i) := by
  constructor
  · cases hcts : const_type_syn input.attrs with
    | error e =>
      simp [derive_fieldless_enum_const_type, hcts] at hok
    | ok cts =>
      cases hfe : assert_fieldless_enum vs with
      | error e =>
        simp [derive_fieldless_enum_const_type, hcts, hdata, hfe] at hok
      | ok u =>
        simp [derive_fieldless_enum_const_type, hcts, hdata, hfe] at hok
        simp [← hok]
  · intro himp i hi
    exact variantDiscriminant_implicit vs himp i hi

/-- The output the derive macro produces for the repository's own test
enum `FieldlessEnum { A, B, C }`. -/
def demoOutput : GeneratedOutput :=
  { enumIdent := "FieldlessEnum"
    constTypeName := "ConstTypeName"
    constImpls := [("A", 0), ("B", 1), ("C", 2)] }

theorem c9_tags_witness :
    demoOutput.constImpls =
      List.zip (demoEnum.map Variant.ident) (assignDiscriminants 0 demoEnum) ∧
    variantDiscriminant demoEnum 1 = 1 :=
  ⟨(c9_tags_are_native_discriminants demoInput demoEnum demoOutput rfl rfl).1,
   (c9_tags_are_native_discriminants demoInput demoEnum demoOutput rfl rfl).2
     (by decide) 1 (by decide)⟩

/-- Whether a generation run failed (the macro panicked: build-time
failure, nothing emitted). -/
def isErrB {α : Type} : Except String α → Bool
  | .error _ => true
  | .ok _ => false

/-- A derive input whose enum has a data-carrying variant. -/
def badVariantInput : DeriveInput :=
  { attrs := [goodAttr], ident := "E",
    data := .enumData [⟨"A", .unit, none⟩, ⟨"Bad", .named, none⟩] }

/-- A derive input with no `#[const_type(...)]` attribute on a struct. -/
def noAttrInput : DeriveInput :=
  { attrs := [], ident := "S", data := .structData }

/-- C8: the generator fails at generation time — the embedded
`Except.error`, i.e. a macro `panic!` that emits no output — whenever the
`#[const_type(...)]` naming attribute is missing, its meta is not a
parenthesized list, or its tokens do not parse as outer attributes
followed by a single identifier; whenever the input is not an enum; and
whenever some variant carries data, in which case the failure message
names the first offending variant. -/
theorem c8_generation_failures (input : DeriveInput) :
    (find_const_type_attr input.attrs = none →
      isErrB (derive_fieldless_enum_const_type input) = true) ∧
    (∀ a, find_const_type_attr input.attrs = some a → a.attrMeta = .path →
      isErrB (derive_fieldless_enum_const_type input) = true) ∧
    (∀ a, find_const_type_attr input.attrs = some a → a.attrMeta = .nameValue →
      isErrB (derive_fieldless_enum_const_type input) = true) ∧
    (∀ a tokens, find_const_type_attr input.attrs = some a →
      a.attrMeta = .list tokens → parseConstTypeSyn tokens = none →
      isErrB (derive_fieldless_enum_const_type input) = true) ∧
    ((∀ vs, input.data ≠ .enumData vs) →
      isErrB (derive_fieldless_enum_const_type input) = true) ∧
    (∀ vs v, input.data = .enumData vs → v ∈ vs → v.fields ≠ .unit →
      isErrB (derive_fieldless_enum_const_type input) = true) ∧
    (∀ vs v cts, const_type_syn input.attrs = .ok cts →
      input.data = .enumData vs →
      vs.find? (fun w => ! w.fields.isUnit) = some v →
      derive_fieldless_enum_const_type input =
        .error ("Expected fieldless enum variant, found non-fieldless variant "
          ++ v.ident)) := by
  refine ⟨?_, ?_, ?_, ?_, ?_, ?_, ?_⟩
  · intro h
    simp [derive_fieldless_enum_const_type, const_type_syn, h, isErrB]
  · intro a ha hm
    simp [derive_fieldless_enum_const_type, const_type_syn, ha, hm, isErrB]
  · intro a ha hm
    simp [derive_fieldless_enum_const_type, const_type_syn, ha, hm, isErrB]
  · intro a tokens ha hm hp
    simp [derive_fieldless_enum_const_type, const_type_syn, ha, hm, hp, isErrB]
  · intro h
    cases hcts : const_type_syn input.attrs with
    | error e => simp [derive_fieldless_enum_const_type, hcts, isErrB]
    | ok cts =>
      cases hd : input.data with
      | enumData vs => exact absurd hd (h vs)
      | structData =>
        simp [derive_fieldless_enum_const_type, hcts, hd, isErrB]
      | unionData =>
        simp [derive_fieldless_enum_const_type, hcts, hd, isErrB]
  · intro vs v hd hv hfields
    cases hcts : const_type_syn input.attrs with
    | error e => simp [derive_fieldless_enum_const_type, hcts, isErrB]
    | ok cts =>
      cases hfe : vs.find? (fun w => ! w.fields.isUnit) with
      | none =>
        exfalso
        have hall := List.find?_eq_none.mp hfe v hv
        cases hcase : v.fields with
        | unit => exact hfields hcase
        | named => rw [hcase] at hall; simp [Fields.isUnit] at hall
        | unnamed => rw [hcase] at hall; simp [Fields.isUnit] at hall
      | some w =>
        simp [derive_fieldless_enum_const_type, hcts, hd,
          assert_fieldless_enum, hfe, isErrB]
  · intro vs v cts hcts hd hfe
    simp [derive_fieldless_enum_const_type, hcts, hd,
      assert_fieldless_enum, hfe]

theorem c8_generation_failures_witness :
    derive_fieldless_enum_const_type badVariantInput =
      .error "Expected fieldless enum variant, found non-fieldless variant Bad" ∧
    isErrB (derive_fieldless_enum_const_type noAttrInput) = true :=
  ⟨(c8_generation_failures badVariantInput).2.2.2.2.2.2
      [⟨"A", .unit, none⟩, ⟨"Bad", .named, none⟩] ⟨"Bad", .named, none⟩
      { attrsCount := 0, name := "ConstTypeName" } rfl rfl rfl,
   (c8_generation_failures noAttrInput).1 rfl⟩

/-- C9 counterexample: for the fieldless enum `enum E { A = 7 }` the
generator emits its single `Const` impl at tag 7 (`E::A as usize`), while
`A`'s 0-based declaration-order ordinal is 0 — the tag is the native
discriminant, not the ordinal. -/
theorem c9_counterexample :
    derive_fieldless_enum_const_type explicitSevenInput =
      .ok { enumIdent := "E", constTypeName := "ConstTypeName",
            constImpls := [("A", 7)] } ∧
    (7 : Nat) ≠ 0 :=
  ⟨rfl, by decide⟩

end OptConst
